import Mathlib

/-!
Shallow embedding of `src/utils/firebase/initAuth.ts` from the
`agave-inc-web` repository: a call-once guard around the
`next-firebase-auth` library's `init`, reading configuration from
process environment variables and skipping (with a console warning)
when required variables are absent.

The module state is the boolean latch `hasInitialized`; we additionally
track how many times `init` has been invoked, and each call's observable
effects (warnings printed, configuration objects passed to `init`).
Environments map variable names to `Option String`, `none` modelling an
unset variable exactly as `process.env.X === undefined`.
-/

/-- A process environment: `none` models an unset variable. -/
def Env : Type := String → Option String

/-- JavaScript truthiness of a `process.env` read: `undefined` and the
empty string are falsy, any other string is truthy. -/
def truthy : Option String → Bool
  | none => false
  | some s => !(s == "")

/-- Embeds `const TWELVE_DAYS_IN_MS = 12 * 60 * 60 * 24 * 1000`. -/
def TWELVE_DAYS_IN_MS : Nat := 12 * 60 * 60 * 24 * 1000

/-- The `credential` record of `firebaseAdminInitConfig`. -/
structure FirebaseAdminCredential where
  projectId : Option String
  clientEmail : Option String
  privateKey : Option String
  deriving DecidableEq

/-- The `firebaseAdminInitConfig` record. -/
structure FirebaseAdminInitConfig where
  credential : FirebaseAdminCredential
  databaseURL : Option String
  storageBucket : Option String
  deriving DecidableEq

/-- The `firebaseClientInitConfig` record. -/
structure FirebaseClientInitConfig where
  apiKey : Option String
  authDomain : Option String
  databaseURL : Option String
  projectId : Option String
  storageBucket : Option String
  messagingSenderId : Option String
  deriving DecidableEq

/-- The `cookies` record. -/
structure CookiesConfig where
  name : String
  keys : List (Option String)
  httpOnly : Bool
  maxAge : Nat
  overwrite : Bool
  path : String
  sameSite : String
  secure : Bool
  signed : Bool
  deriving DecidableEq

/-- The `CustomInitConfig` object assembled by the module (the error
callback fields, which only forward to `console.error`, are omitted as
they carry no data). -/
structure CustomInitConfig where
  authPageURL : String
  appPageURL : String
  loginAPIEndpoint : String
  logoutAPIEndpoint : String
  firebaseAdminInitConfig : FirebaseAdminInitConfig
  firebaseClientInitConfig : FirebaseClientInitConfig
  cookies : CookiesConfig
  deriving DecidableEq

/-- Modelled from the spec: `src/utils/firebase/getPrivateKey.ts` is not
among the provided sources (only its import site is). The spec states
that configuration values are read once from the environment and passed
through unmodified, so this returns the value of `FIREBASE_PRIVATE_KEY`
verbatim. -/
def getPrivateKey (env : Env) : Option String :=
  env "FIREBASE_PRIVATE_KEY"

/-- Embeds the module-level `const initConfig`, evaluated once at module
load against the environment `env`. Every field is the verbatim
environment read (or literal) from the source. -/
def initConfig (env : Env) : CustomInitConfig :=
  { authPageURL := "/log-in"
    appPageURL := "/"
    loginAPIEndpoint := "/api/log-in"
    logoutAPIEndpoint := "/api/log-out"
    firebaseAdminInitConfig :=
      { credential :=
          { projectId := env "NEXT_PUBLIC_FIREBASE_PROJECT_ID"
            clientEmail := env "FIREBASE_CLIENT_EMAIL"
            privateKey := getPrivateKey env }
        databaseURL := env "NEXT_PUBLIC_FIREBASE_DATABASE_URL"
        storageBucket := env "NEXT_PUBLIC_STORAGE_BUCKET" }
    firebaseClientInitConfig :=
      { apiKey := env "NEXT_PUBLIC_FIREBASE_PUBLIC_API_KEY"
        authDomain := env "NEXT_PUBLIC_FIREBASE_AUTH_DOMAIN"
        databaseURL := env "NEXT_PUBLIC_FIREBASE_DATABASE_URL"
        projectId := env "NEXT_PUBLIC_FIREBASE_PROJECT_ID"
        storageBucket := env "NEXT_PUBLIC_STORAGE_BUCKET"
        messagingSenderId := env "NEXT_PUBLIC_MESSAGING_SENDER_ID" }
    cookies :=
      { name := "AgaveAuth"
        keys := [env "COOKIE_SECRET_CURRENT", env "COOKIE_SECRET_PREVIOUS"]
        httpOnly := true
        maxAge := TWELVE_DAYS_IN_MS
        overwrite := true
        path := "/"
        sameSite := "Strict"
        secure := env "NEXT_PUBLIC_COOKIE_SECURE" == some "true"
        signed := true } }

/-- Process-level state of the module: the `hasInitialized` latch and
the number of times the library's `init` has been invoked. -/
structure ProcState where
  hasInitialized : Bool
  initCount : Nat
  deriving DecidableEq

/-- The state at module load: `let hasInitialized = false`, `init` not
yet invoked. -/
def initialProcState : ProcState := { hasInitialized := false, initCount := 0 }

/-- The `console.warn` message for a missing public API key. -/
def missingApiKeyWarning : String :=
  "next-firebase-auth not initialized: missing NEXT_PUBLIC_FIREBASE_PUBLIC_API_KEY. See .env.local.example."

/-- The `console.warn` message for missing Admin / cookie variables on
the server. -/
def missingAdminWarning : String :=
  "next-firebase-auth not initialized on server: missing Firebase Admin / cookie env vars. See .env.local.example."

/-- Embeds the `missingAdmin` presence check inside `initAuth`: true
when any of the six server-side variables is absent (unset or empty). -/
def missingAdmin (env : Env) : Bool :=
  !truthy (env "NEXT_PUBLIC_FIREBASE_PROJECT_ID") ||
  !truthy (env "NEXT_PUBLIC_FIREBASE_DATABASE_URL") ||
  !truthy (env "FIREBASE_CLIENT_EMAIL") ||
  !truthy (env "FIREBASE_PRIVATE_KEY") ||
  !truthy (env "COOKIE_SECRET_CURRENT") ||
  !truthy (env "COOKIE_SECRET_PREVIOUS")

/-- The observable outcome of one `initAuth()` call: the resulting
module state, the warnings printed, and the configuration objects
passed to the library's `init` (zero or one). -/
structure CallResult where
  state : ProcState
  warnings : List String
  initCalls : List CustomInitConfig
  deriving DecidableEq

/-- Embeds one call of `initAuth`. `isServer` models
`typeof window === "undefined"`; `cfg` is the module-level `initConfig`
captured at module load; `env` is the environment read by the guards at
call time. The function is total: every branch returns normally, the
missing-configuration branches with a warning and the state unchanged
(modelling the warn-and-skip early returns of the source, which never
throws). -/
def initAuthCall (isServer : Bool) (cfg : CustomInitConfig) (env : Env)
    (s : ProcState) : CallResult :=
  if s.hasInitialized then { state := s, warnings := [], initCalls := [] }
  else if !truthy (env "NEXT_PUBLIC_FIREBASE_PUBLIC_API_KEY") then
    { state := s, warnings := [missingApiKeyWarning], initCalls := [] }
  else if isServer && missingAdmin env then
    { state := s, warnings := [missingAdminWarning], initCalls := [] }
  else
    { state := { hasInitialized := true, initCount := s.initCount + 1 },
      warnings := [], initCalls := [cfg] }

/-- Runs a sequence of `initAuth()` calls in one process: each call may
occur on client or server and under a possibly different environment,
while the module-load configuration `cfg` stays fixed. -/
def runTrace (cfg : CustomInitConfig) : List (Bool × Env) → ProcState → ProcState
  | [], s => s
  | (isServer, env) :: rest, s =>
      runTrace cfg rest (initAuthCall isServer cfg env s).state

/-- The environment variables enumerated for `initAuth` in the README:
the Firebase client variables, the Admin / cookie variables and
`NEXT_PUBLIC_COOKIE_SECURE`. -/
def readmeEnvVars : List String :=
  ["NEXT_PUBLIC_FIREBASE_PUBLIC_API_KEY",
   "NEXT_PUBLIC_FIREBASE_AUTH_DOMAIN",
   "NEXT_PUBLIC_FIREBASE_PROJECT_ID",
   "NEXT_PUBLIC_FIREBASE_DATABASE_URL",
   "NEXT_PUBLIC_FIREBASE_APP_ID",
   "NEXT_PUBLIC_STORAGE_BUCKET",
   "NEXT_PUBLIC_MESSAGING_SENDER_ID",
   "FIREBASE_CLIENT_EMAIL",
   "FIREBASE_PRIVATE_KEY",
   "COOKIE_SECRET_CURRENT",
   "COOKIE_SECRET_PREVIOUS",
   "NEXT_PUBLIC_COOKIE_SECURE"]

/-- Two environments agree on a list of variable names. -/
def agreeOn (ks : List String) (e1 e2 : Env) : Prop :=
  ∀ k, k ∈ ks → e1 k = e2 k

/-- A concrete environment with every README variable set. -/
def envFull : Env := fun k => if k ∈ readmeEnvVars then some "set" else none

/-- A concrete empty environment (every variable unset). -/
def envEmpty : Env := fun _ => none

/-- A concrete environment with only the public API key set: the
client-only setup, where every Admin credential and cookie secret is
absent. -/
def envClientOnly : Env := fun k =>
  if k = "NEXT_PUBLIC_FIREBASE_PUBLIC_API_KEY" then some "AIza-test" else none

/-- `envFull` with one extra variable that the README enumeration for
`initAuth` does not contain. -/
def envExtra : Env := fun k =>
  if k = "NEXT_PUBLIC_MAPS_JS_API_KEY" then some "maps-key" else envFull k

/-- The reachable-state invariant of the module: the number of `init`
invocations is 1 when the latch is set and 0 otherwise. -/
def goodState (s : ProcState) : Prop :=
  s.initCount = if s.hasInitialized then 1 else 0

/-- Case analysis of one `initAuth()` call: the four branches of the
source function. -/
lemma initAuthCall_eq_cases (isServer : Bool) (cfg : CustomInitConfig)
    (env : Env) (s : ProcState) :
    (s.hasInitialized = true ∧
      initAuthCall isServer cfg env s = ⟨s, [], []⟩) ∨
    (s.hasInitialized = false ∧
      truthy (env "NEXT_PUBLIC_FIREBASE_PUBLIC_API_KEY") = false ∧
      initAuthCall isServer cfg env s = ⟨s, [missingApiKeyWarning], []⟩) ∨
    (s.hasInitialized = false ∧
      truthy (env "NEXT_PUBLIC_FIREBASE_PUBLIC_API_KEY") = true ∧
      (isServer && missingAdmin env) = true ∧
      initAuthCall isServer cfg env s = ⟨s, [missingAdminWarning], []⟩) ∨
    (s.hasInitialized = false ∧
      truthy (env "NEXT_PUBLIC_FIREBASE_PUBLIC_API_KEY") = true ∧
      (isServer && missingAdmin env) = false ∧
      initAuthCall isServer cfg env s =
        ⟨⟨true, s.initCount + 1⟩, [], [cfg]⟩) := by
  cases hb : s.hasInitialized <;>
    cases hk : truthy (env "NEXT_PUBLIC_FIREBASE_PUBLIC_API_KEY") <;>
      cases hm : isServer && missingAdmin env <;>
        simp [initAuthCall, hb, hk, hm]

/-- One call preserves the reachable-state invariant. -/
lemma initAuthCall_good (isServer : Bool) (cfg : CustomInitConfig)
    (env : Env) (s : ProcState) (h : goodState s) :
    goodState (initAuthCall isServer cfg env s).state := by
  rcases initAuthCall_eq_cases isServer cfg env s with
    ⟨_, he⟩ | ⟨_, _, he⟩ | ⟨_, _, _, he⟩ | ⟨hb, _, _, he⟩
  · rw [he]; exact h
  · rw [he]; exact h
  · rw [he]; exact h
  · rw [he]
    unfold goodState at h ⊢
    rw [hb] at h
    simp at h
    simp [h]

/-- Every trace of calls preserves the reachable-state invariant. -/
lemma runTrace_good (cfg : CustomInitConfig) (calls : List (Bool × Env)) :
    ∀ s : ProcState, goodState s → goodState (runTrace cfg calls s) := by
  induction calls with
  | nil => intro s h; exact h
  | cons c rest ih =>
      intro s h
      obtain ⟨isServer, env⟩ := c
      simp only [runTrace]
      exact ih _ (initAuthCall_good isServer cfg env s h)

/-- C1: over every sequence of `initAuth()` calls in one process (client
or server, the environment possibly changing between calls), the
library's `init` is invoked at most once. -/
theorem initAuth_init_at_most_once (cfg : CustomInitConfig)
    (calls : List (Bool × Env)) :
    (runTrace cfg calls initialProcState).initCount ≤ 1 := by
  have h := runTrace_good cfg calls initialProcState
    (by simp [goodState, initialProcState])
  unfold goodState at h
  rw [h]
  cases (runTrace cfg calls initialProcState).hasInitialized <;> simp

/-- C2: when `NEXT_PUBLIC_FIREBASE_PUBLIC_API_KEY` is absent (unset or
empty), a call from an uninitialized state prints exactly the missing
API key warning, passes nothing to `init`, and leaves the state (hence
the `hasInitialized` latch, still false) unchanged. -/
theorem initAuth_noop_without_api_key (isServer : Bool)
    (cfg : CustomInitConfig) (env : Env) (s : ProcState)
    (hs : s.hasInitialized = false)
    (hk : truthy (env "NEXT_PUBLIC_FIREBASE_PUBLIC_API_KEY") = false) :
    initAuthCall isServer cfg env s =
      { state := s, warnings := [missingApiKeyWarning], initCalls := [] } ∧
    (initAuthCall isServer cfg env s).state.hasInitialized = false := by
  have he : initAuthCall isServer cfg env s =
      { state := s, warnings := [missingApiKeyWarning], initCalls := [] } := by
    unfold initAuthCall
    simp [hs, hk]
  exact ⟨he, by rw [he]; exact hs⟩

/-- Witness for C2: the empty environment on the server. -/
theorem initAuth_noop_without_api_key_witness :
    initialProcState.hasInitialized = false ∧
    truthy (envEmpty "NEXT_PUBLIC_FIREBASE_PUBLIC_API_KEY") = false ∧
    (initAuthCall true (initConfig envEmpty) envEmpty initialProcState =
      { state := initialProcState, warnings := [missingApiKeyWarning],
        initCalls := [] } ∧
     (initAuthCall true (initConfig envEmpty) envEmpty
        initialProcState).state.hasInitialized = false) :=
  ⟨rfl, rfl, initAuth_noop_without_api_key true (initConfig envEmpty)
    envEmpty initialProcState rfl rfl⟩

/-- C3: on the server, with the public API key present but at least one
Admin credential or cookie secret absent, the call prints the
missing-Admin warning (distinct from the missing-API-key one), passes
nothing to `init`, and leaves the state unchanged. -/
theorem initAuth_server_skips_on_missing_admin (cfg : CustomInitConfig)
    (env : Env) (s : ProcState) (hs : s.hasInitialized = false)
    (hk : truthy (env "NEXT_PUBLIC_FIREBASE_PUBLIC_API_KEY") = true)
    (hm : missingAdmin env = true) :
    initAuthCall true cfg env s =
      { state := s, warnings := [missingAdminWarning], initCalls := [] } ∧
    missingAdminWarning ≠ missingApiKeyWarning := by
  constructor
  · unfold initAuthCall
    simp [hs, hk, hm]
  · decide

/-- Witness for C3: only the public API key set, on the server. -/
theorem initAuth_server_skips_on_missing_admin_witness :
    initialProcState.hasInitialized = false ∧
    truthy (envClientOnly "NEXT_PUBLIC_FIREBASE_PUBLIC_API_KEY") = true ∧
    missingAdmin envClientOnly = true ∧
    (initAuthCall true (initConfig envClientOnly) envClientOnly
        initialProcState =
      { state := initialProcState, warnings := [missingAdminWarning],
        initCalls := [] } ∧
     missingAdminWarning ≠ missingApiKeyWarning) :=
  ⟨rfl, by decide, by decide,
   initAuth_server_skips_on_missing_admin (initConfig envClientOnly)
     envClientOnly initialProcState rfl (by decide) (by decide)⟩

/-- C4: `initAuth` is a total function of its inputs (the embedding is a
plain Lean function, modelling that no branch throws), and every call
either invokes `init` (setting the latch, with no warning) or returns
early with the state unchanged, in which case either the latch was
already set or exactly one of the two missing-configuration warnings was
printed. -/
theorem initAuth_total_warn_or_init (isServer : Bool)
    (cfg : CustomInitConfig) (env : Env) (s : ProcState) :
    ((initAuthCall isServer cfg env s).initCalls = [cfg] ∧
     (initAuthCall isServer cfg env s).state.hasInitialized = true ∧
     (initAuthCall isServer cfg env s).warnings = []) ∨
    ((initAuthCall isServer cfg env s).initCalls = [] ∧
     (initAuthCall isServer cfg env s).state = s ∧
     (s.hasInitialized = true ∨
      (initAuthCall isServer cfg env s).warnings = [missingApiKeyWarning] ∨
      (initAuthCall isServer cfg env s).warnings = [missingAdminWarning])) := by
  rcases initAuthCall_eq_cases isServer cfg env s with
    ⟨hb, he⟩ | ⟨_, _, he⟩ | ⟨_, _, _, he⟩ | ⟨_, _, _, he⟩ <;> rw [he]
  · exact Or.inr ⟨rfl, rfl, Or.inl hb⟩
  · exact Or.inr ⟨rfl, rfl, Or.inr (Or.inl rfl)⟩
  · exact Or.inr ⟨rfl, rfl, Or.inr (Or.inr rfl)⟩
  · exact Or.inl ⟨rfl, rfl, rfl⟩

/-- C5: `initAuth` (the configuration it assembles and the whole
observable outcome of a call) depends only on the environment variables
the README enumerates for it: two environments agreeing on those
variables yield the same configuration object, the same warnings, the
same decision whether to invoke `init`, and the same state. -/
theorem initAuth_depends_only_on_readme_env (e1 e2 : Env)
    (isServer : Bool) (s : ProcState)
    (h : agreeOn readmeEnvVars e1 e2) :
    initConfig e1 = initConfig e2 ∧
    initAuthCall isServer (initConfig e1) e1 s =
      initAuthCall isServer (initConfig e2) e2 s := by
  have hAPI := h "NEXT_PUBLIC_FIREBASE_PUBLIC_API_KEY" (by decide)
  have hAD := h "NEXT_PUBLIC_FIREBASE_AUTH_DOMAIN" (by decide)
  have hPID := h "NEXT_PUBLIC_FIREBASE_PROJECT_ID" (by decide)
  have hDB := h "NEXT_PUBLIC_FIREBASE_DATABASE_URL" (by decide)
  have hSB := h "NEXT_PUBLIC_STORAGE_BUCKET" (by decide)
  have hMS := h "NEXT_PUBLIC_MESSAGING_SENDER_ID" (by decide)
  have hCE := h "FIREBASE_CLIENT_EMAIL" (by decide)
  have hPK := h "FIREBASE_PRIVATE_KEY" (by decide)
  have hCC := h "COOKIE_SECRET_CURRENT" (by decide)
  have hCP := h "COOKIE_SECRET_PREVIOUS" (by decide)
  have hCS := h "NEXT_PUBLIC_COOKIE_SECURE" (by decide)
  have hcfg : initConfig e1 = initConfig e2 := by
    unfold initConfig getPrivateKey
    rw [hAPI, hAD, hPID, hDB, hSB, hMS, hCE, hPK, hCC, hCP, hCS]
  refine ⟨hcfg, ?_⟩
  rw [hcfg]
  unfold initAuthCall missingAdmin
  rw [hAPI, hPID, hDB, hCE, hPK, hCC, hCP]

/-- Witness for C5: two concrete environments differing only in a
variable outside the README enumeration (a Google Maps key) give the
same configuration and the same call outcome. -/
theorem initAuth_depends_only_on_readme_env_witness :
    agreeOn readmeEnvVars envFull envExtra ∧
    (initConfig envFull = initConfig envExtra ∧
     initAuthCall true (initConfig envFull) envFull initialProcState =
       initAuthCall true (initConfig envExtra) envExtra initialProcState) := by
  have hag : agreeOn readmeEnvVars envFull envExtra := by
    intro k hk
    unfold envExtra
    have hne : k ≠ "NEXT_PUBLIC_MAPS_JS_API_KEY" := by
      intro he
      subst he
      revert hk
      decide
    simp [hne]
  exact ⟨hag, initAuth_depends_only_on_readme_env envFull envExtra true
    initialProcState hag⟩

/-- C6: whenever a call passes a configuration object to `init`, that
object is the module-load `initConfig`, whose fields are the verbatim
environment reads: the client `apiKey`, the Admin credential fields, the
database URLs and the storage buckets are exactly the corresponding
environment values (the private key being `getPrivateKey`'s result),
with no transformation applied by this module. -/
theorem initAuth_passes_env_through (e : Env) (isServer : Bool)
    (env : Env) (s : ProcState) (c : CustomInitConfig)
    (h : (initAuthCall isServer (initConfig e) env s).initCalls = [c]) :
    c.firebaseClientInitConfig.apiKey =
      e "NEXT_PUBLIC_FIREBASE_PUBLIC_API_KEY" ∧
    c.firebaseAdminInitConfig.credential.projectId =
      e "NEXT_PUBLIC_FIREBASE_PROJECT_ID" ∧
    c.firebaseAdminInitConfig.credential.clientEmail =
      e "FIREBASE_CLIENT_EMAIL" ∧
    c.firebaseAdminInitConfig.credential.privateKey = getPrivateKey e ∧
    c.firebaseAdminInitConfig.databaseURL =
      e "NEXT_PUBLIC_FIREBASE_DATABASE_URL" ∧
    c.firebaseClientInitConfig.databaseURL =
      e "NEXT_PUBLIC_FIREBASE_DATABASE_URL" ∧
    c.firebaseAdminInitConfig.storageBucket =
      e "NEXT_PUBLIC_STORAGE_BUCKET" ∧
    c.firebaseClientInitConfig.storageBucket =
      e "NEXT_PUBLIC_STORAGE_BUCKET" := by
  have hc : c = initConfig e := by
    rcases initAuthCall_eq_cases isServer (initConfig e) env s with
      ⟨_, he⟩ | ⟨_, _, he⟩ | ⟨_, _, _, he⟩ | ⟨_, _, _, he⟩ <;>
        rw [he] at h <;> simp at h
    exact h.symm
  subst hc
  exact ⟨rfl, rfl, rfl, rfl, rfl, rfl, rfl, rfl⟩

/-- Witness for C6: a client-side call under the API-key-only
environment passes exactly `initConfig envClientOnly` to `init`, and its
fields are the verbatim environment reads. -/
theorem initAuth_passes_env_through_witness :
    (initAuthCall false (initConfig envClientOnly) envClientOnly
        initialProcState).initCalls = [initConfig envClientOnly] ∧
    ((initConfig envClientOnly).firebaseClientInitConfig.apiKey =
       envClientOnly "NEXT_PUBLIC_FIREBASE_PUBLIC_API_KEY" ∧
     (initConfig envClientOnly).firebaseAdminInitConfig.credential.projectId =
       envClientOnly "NEXT_PUBLIC_FIREBASE_PROJECT_ID" ∧
     (initConfig envClientOnly).firebaseAdminInitConfig.credential.clientEmail =
       envClientOnly "FIREBASE_CLIENT_EMAIL" ∧
     (initConfig envClientOnly).firebaseAdminInitConfig.credential.privateKey =
       getPrivateKey envClientOnly ∧
     (initConfig envClientOnly).firebaseAdminInitConfig.databaseURL =
       envClientOnly "NEXT_PUBLIC_FIREBASE_DATABASE_URL" ∧
     (initConfig envClientOnly).firebaseClientInitConfig.databaseURL =
       envClientOnly "NEXT_PUBLIC_FIREBASE_DATABASE_URL" ∧
     (initConfig envClientOnly).firebaseAdminInitConfig.storageBucket =
       envClientOnly "NEXT_PUBLIC_STORAGE_BUCKET" ∧
     (initConfig envClientOnly).firebaseClientInitConfig.storageBucket =
       envClientOnly "NEXT_PUBLIC_STORAGE_BUCKET") :=
  ⟨by decide, initAuth_passes_env_through envClientOnly false envClientOnly
    initialProcState (initConfig envClientOnly) (by decide)⟩

/-- C7: on the client (`typeof window` defined), with the public API key
present, the call invokes `init` and sets the latch regardless of the
Admin credential and cookie secret variables: the server-only presence
check is not applied. -/
theorem initAuth_client_ignores_admin_vars (cfg : CustomInitConfig)
    (env : Env) (s : ProcState) (hs : s.hasInitialized = false)
    (hk : truthy (env "NEXT_PUBLIC_FIREBASE_PUBLIC_API_KEY") = true) :
    initAuthCall false cfg env s =
      { state := { hasInitialized := true, initCount := s.initCount + 1 },
        warnings := [], initCalls := [cfg] } := by
  unfold initAuthCall
  simp [hs, hk]

/-- Witness for C7: the API-key-only environment, where every Admin
credential and cookie secret is absent, still initializes on the
client. -/
theorem initAuth_client_ignores_admin_vars_witness :
    initialProcState.hasInitialized = false ∧
    truthy (envClientOnly "NEXT_PUBLIC_FIREBASE_PUBLIC_API_KEY") = true ∧
    missingAdmin envClientOnly = true ∧
    initAuthCall false (initConfig envClientOnly) envClientOnly
        initialProcState =
      { state := { hasInitialized := true, initCount := 1 },
        warnings := [], initCalls := [initConfig envClientOnly] } :=
  ⟨rfl, by decide, by decide,
   initAuth_client_ignores_admin_vars (initConfig envClientOnly)
     envClientOnly initialProcState rfl (by decide)⟩

/-- C8: under a fixed environment (and a fixed client/server side),
calling `initAuth` twice in succession leaves the module state — the
`hasInitialized` latch and the number of `init` invocations — exactly as
one call does, from any starting state. -/
theorem initAuth_idempotent (isServer : Bool) (cfg : CustomInitConfig)
    (env : Env) (s : ProcState) :
    (initAuthCall isServer cfg env
        (initAuthCall isServer cfg env s).state).state =
      (initAuthCall isServer cfg env s).state := by
  rcases initAuthCall_eq_cases isServer cfg env s with
    ⟨hb, he⟩ | ⟨hb, hk, he⟩ | ⟨hb, hk, hm, he⟩ | ⟨hb, hk, hm, he⟩
  · rw [he]
    show (initAuthCall isServer cfg env s).state = s
    rw [he]
  · rw [he]
    show (initAuthCall isServer cfg env s).state = s
    rw [he]
  · rw [he]
    show (initAuthCall isServer cfg env s).state = s
    rw [he]
  · rw [he]
    show (initAuthCall isServer cfg env ⟨true, s.initCount + 1⟩).state =
      (⟨true, s.initCount + 1⟩ : ProcState)
    unfold initAuthCall
    simp

/-- C9: the `hasInitialized` latch starts false, is set only by a call
that invokes `init`, is never reset, and on every reachable state it is
true exactly when `init` has been invoked; once true, every later call
returns the state unchanged with no warning and no `init`, whatever the
environment. -/
theorem hasInitialized_latch_invariant (cfg : CustomInitConfig)
    (calls : List (Bool × Env)) (isServer : Bool) (env : Env) :
    initialProcState.hasInitialized = false ∧
    ((runTrace cfg calls initialProcState).hasInitialized = true ↔
      1 ≤ (runTrace cfg calls initialProcState).initCount) ∧
    (∀ s : ProcState, s.hasInitialized = true →
      initAuthCall isServer cfg env s =
        { state := s, warnings := [], initCalls := [] }) ∧
    (∀ s : ProcState,
      (initAuthCall isServer cfg env s).state.hasInitialized = true →
      s.hasInitialized = true ∨
        (initAuthCall isServer cfg env s).initCalls = [cfg]) := by
  refine ⟨rfl, ?_, ?_, ?_⟩
  · have h := runTrace_good cfg calls initialProcState
      (by simp [goodState, initialProcState])
    unfold goodState at h
    rw [h]
    cases hA : (runTrace cfg calls initialProcState).hasInitialized <;>
      simp [hA]
  · intro s hs
    unfold initAuthCall
    simp [hs]
  · intro s hs
    rcases initAuthCall_eq_cases isServer cfg env s with
      ⟨hb, he⟩ | ⟨hb, _, he⟩ | ⟨hb, _, _, he⟩ | ⟨hb, _, _, he⟩
    · exact Or.inl hb
    · rw [he] at hs
      exact Or.inl hs
    · rw [he] at hs
      exact Or.inl hs
    · refine Or.inr ?_
      rw [he]

/-- Witness for C9: a state with the latch already set is returned
unchanged, with no warning and no `init`, by a server call under the
full environment. -/
theorem hasInitialized_latch_invariant_witness :
    (⟨true, 1⟩ : ProcState).hasInitialized = true ∧
    initAuthCall true (initConfig envFull) envFull ⟨true, 1⟩ =
      { state := ⟨true, 1⟩, warnings := [], initCalls := [] } :=
  ⟨rfl, (hasInitialized_latch_invariant (initConfig envFull) [] true
    envFull).2.2.1 ⟨true, 1⟩ rfl⟩

/-- C10: the cookie configuration's `secure` field is true exactly when
`NEXT_PUBLIC_COOKIE_SECURE` is the string "true"; any other value —
unset, empty, "TRUE", "1", ... — yields false. -/
theorem cookie_secure_iff_env_true (env : Env) :
    (initConfig env).cookies.secure = true ↔
      env "NEXT_PUBLIC_COOKIE_SECURE" = some "true" := by
  simp [initConfig]
